import Mathlib

/-!
Shallow embedding of `vlk_tracing_subscriber` (src/src/lib.rs).

The crate exports the macro `stringable_enum`, which attaches to an
already-declared fieldless enum:
  - `NUM_VARIANTS`, `ENUM_VARIANTS`, `ENUM_VARIANT_STRINGS` constants,
  - a total `as_static_str` accessor (a match over all variants),
  - a `FromStr` implementation (a match over the string literals, first
    arm in table order wins, wildcard arm yields `Err(())`),
  - unless invoked with `@no-display`, a `Display` implementation whose
    `fmt` calls `f.pad(self.as_static_str())`.

The crate instantiates the macro twice: on `Color` (Always, Auto, Never)
and on `LogLevelSerdable` (Trace, Debug, Info, Warn, Error).  We embed
both instantiations, expanding the macro by hand exactly as `rustc`
would, together with `Color::detect`, `LogLevelSerdable::to_tracing`,
the derived `Default` values and the derived `Ord` (which for fieldless
Rust enums compares declaration-order discriminants).
-/

namespace VlkTracing

/-- The `Color` enum of src/src/lib.rs (lines 89-97), declaration order
Always, Auto, Never. -/
inductive Color : Type
  | Always
  | Auto
  | Never
  deriving DecidableEq, Repr, Fintype

/-- The `LogLevelSerdable` enum of src/src/lib.rs (lines 138-146),
declaration order Trace, Debug, Info, Warn, Error. -/
inductive LogLevelSerdable : Type
  | Trace
  | Debug
  | Info
  | Warn
  | Error
  deriving DecidableEq, Repr, Fintype

/-- The `tracing::Level` values used by `to_tracing` (the five severity
constants of the tracing crate). -/
inductive Level : Type
  | TRACE
  | DEBUG
  | INFO
  | WARN
  | ERROR
  deriving DecidableEq, Repr, Fintype

/-- Equality of `Except` values (Rust `Result`) is decidable when it is
on both components; used to evaluate `from_str` results. -/
instance {e a : Type} [DecidableEq e] [DecidableEq a] : DecidableEq (Except e a) := fun
  | .ok x, .ok y =>
    if h : x = y then .isTrue (by rw [h]) else .isFalse (by intro hc; cases hc; exact h rfl)
  | .error x, .error y =>
    if h : x = y then .isTrue (by rw [h]) else .isFalse (by intro hc; cases hc; exact h rfl)
  | .ok _, .error _ => .isFalse (by intro hc; cases hc)
  | .error _, .ok _ => .isFalse (by intro hc; cases hc)

namespace Color

/-- `ENUM_VARIANTS` for `Color`, from the macro arm
`[$(Self::$variant),+]` applied to the binding table
`Always = "always", Auto = "auto", Never = "never"`. -/
def ENUM_VARIANTS : List Color := [.Always, .Auto, .Never]

/-- `NUM_VARIANTS` for `Color`: the macro defines it as the length of
the variant array literal. -/
def NUM_VARIANTS : Nat := ENUM_VARIANTS.length

/-- `ENUM_VARIANT_STRINGS` for `Color`, from the macro arm
`[$($strval),+]`. -/
def ENUM_VARIANT_STRINGS : List String := ["always", "auto", "never"]

/-- `Color::as_static_str`: the macro-generated exhaustive match. -/
def as_static_str : Color → String
  | .Always => "always"
  | .Auto => "auto"
  | .Never => "never"

/-- `<Color as FromStr>::from_str`: the macro-generated match over the
string literals in table order, with wildcard arm `Err(())`. -/
def from_str (s : String) : Except Unit Color :=
  if s = "always" then .ok .Always
  else if s = "auto" then .ok .Auto
  else if s = "never" then .ok .Never
  else .error ()

/-- `Color::detect` (src/src/lib.rs lines 110-116); the stream argument
is represented by its `is_terminal()` answer. -/
def detect (self : Color) (stream_is_terminal : Bool) : Bool :=
  match self with
  | .Always => true
  | .Auto => stream_is_terminal
  | .Never => false

/-- `Color::default()`: the derived `Default` with `#[default]` on
`Auto`. -/
def default : Color := .Auto

/-- The declaration-order discriminant of a `Color` value, which the
derived `Ord` compares. -/
def discriminant : Color → Nat
  | .Always => 0
  | .Auto => 1
  | .Never => 2

/-- The derived strict order on `Color` (discriminant comparison). -/
def lt (a b : Color) : Prop := a.discriminant < b.discriminant

instance (a b : Color) : Decidable (lt a b) :=
  inferInstanceAs (Decidable (a.discriminant < b.discriminant))

end Color

namespace LogLevelSerdable

/-- `ENUM_VARIANTS` for `LogLevelSerdable`, from the binding table
`Trace = "trace", Debug = "debug", Info = "info", Warn = "warn",
Error = "error"`. -/
def ENUM_VARIANTS : List LogLevelSerdable := [.Trace, .Debug, .Info, .Warn, .Error]

/-- `NUM_VARIANTS` for `LogLevelSerdable`. -/
def NUM_VARIANTS : Nat := ENUM_VARIANTS.length

/-- `ENUM_VARIANT_STRINGS` for `LogLevelSerdable`. -/
def ENUM_VARIANT_STRINGS : List String := ["trace", "debug", "info", "warn", "error"]

/-- `LogLevelSerdable::as_static_str`: the macro-generated exhaustive
match. -/
def as_static_str : LogLevelSerdable → String
  | .Trace => "trace"
  | .Debug => "debug"
  | .Info => "info"
  | .Warn => "warn"
  | .Error => "error"

/-- `<LogLevelSerdable as FromStr>::from_str`: match over the string
literals in table order, wildcard arm `Err(())`. -/
def from_str (s : String) : Except Unit LogLevelSerdable :=
  if s = "trace" then .ok .Trace
  else if s = "debug" then .ok .Debug
  else if s = "info" then .ok .Info
  else if s = "warn" then .ok .Warn
  else if s = "error" then .ok .Error
  else .error ()

/-- `LogLevelSerdable::to_tracing` (src/src/lib.rs lines 150-158). -/
def to_tracing : LogLevelSerdable → Level
  | .Trace => .TRACE
  | .Debug => .DEBUG
  | .Info => .INFO
  | .Warn => .WARN
  | .Error => .ERROR

/-- `LogLevelSerdable::default()`: `#[default]` sits on `Debug` when
`debug_assertions` is set and on `Warn` otherwise; the build flag is the
boolean argument. -/
def default (debug_assertions : Bool) : LogLevelSerdable :=
  if debug_assertions then .Debug else .Warn

/-- The declaration-order discriminant of a `LogLevelSerdable` value,
which the derived `Ord` compares. -/
def discriminant : LogLevelSerdable → Nat
  | .Trace => 0
  | .Debug => 1
  | .Info => 2
  | .Warn => 3
  | .Error => 4

/-- The derived strict order on `LogLevelSerdable` (discriminant
comparison). -/
def lt (a b : LogLevelSerdable) : Prop := a.discriminant < b.discriminant

instance (a b : LogLevelSerdable) : Decidable (lt a b) :=
  inferInstanceAs (Decidable (a.discriminant < b.discriminant))

end LogLevelSerdable

/-- Alignment flag carried by a Rust `Formatter` (`core::fmt::Alignment`);
`left` is the default used by `pad` for strings. -/
inductive FmtAlignment : Type
  | left
  | right
  | center
  deriving DecidableEq, Repr

/-- The formatting state a Rust `Formatter` consults in `pad`: the fill
character, the alignment, the optional minimum field width and the
optional precision. -/
structure Formatter : Type where
  fill : Char
  align : FmtAlignment
  width : Option Nat
  precision : Option Nat
  deriving DecidableEq, Repr

/-- `Formatter::pad` from Rust core, which the macro-generated
`Display::fmt` calls on `self.as_static_str()`: with neither width nor
precision set, the string is written unchanged; otherwise precision
truncates to that many characters and a larger width pads with the fill
character on the side the alignment selects. -/
def Formatter.pad (f : Formatter) (s : String) : String :=
  if f.width = none ∧ f.precision = none then s
  else
    let t := match f.precision with
      | some max => String.mk (s.toList.take max)
      | none => s
    match f.width with
    | none => t
    | some w =>
      if w ≤ t.length then t
      else
        let padding := w - t.length
        match f.align with
        | .left => t ++ String.mk (List.replicate padding f.fill)
        | .right => String.mk (List.replicate padding f.fill) ++ t
        | .center =>
          String.mk (List.replicate (padding / 2) f.fill) ++ t ++
            String.mk (List.replicate (padding / 2 + padding % 2) f.fill)

/-- `<Color as Display>::fmt` (the macro's display arm, which `Color`
uses): the body is `f.pad(self.as_static_str())`; the result is the
string written to the formatter. -/
def Color.fmtDisplay (self : Color) (f : Formatter) : String :=
  f.pad self.as_static_str

/-- `<LogLevelSerdable as Display>::fmt` (the macro's display arm, which
`LogLevelSerdable` uses): `f.pad(self.as_static_str())`. -/
def LogLevelSerdable.fmtDisplay (self : LogLevelSerdable) (f : Formatter) : String :=
  f.pad self.as_static_str

/-- Claim C1: for every enumeration generated by `stringable_enum`
(`Color` and `LogLevelSerdable`) and every variant `v`, parsing the
token produced by the total accessor returns that same variant:
`from_str (as_static_str v) = Ok v`. -/
theorem c1_from_str_as_static_str_roundtrip :
    (∀ v : Color, Color.from_str v.as_static_str = .ok v) ∧
    (∀ v : LogLevelSerdable, LogLevelSerdable.from_str v.as_static_str = .ok v) := by
  decide

/-- Claim C2: for every generated enumeration and every index
`i < NUM_VARIANTS`, the two catalogue arrays are positionally aligned:
`ENUM_VARIANTS[i].as_static_str() = ENUM_VARIANT_STRINGS[i]`. -/
theorem c2_catalogue_alignment :
    (∀ i : Fin Color.NUM_VARIANTS,
      (Color.ENUM_VARIANTS.get i).as_static_str = Color.ENUM_VARIANT_STRINGS.get i) ∧
    (∀ i : Fin LogLevelSerdable.NUM_VARIANTS,
      (LogLevelSerdable.ENUM_VARIANTS.get i).as_static_str =
        LogLevelSerdable.ENUM_VARIANT_STRINGS.get i) := by
  decide

/-- Claim C3: `ENUM_VARIANTS` contains every declared variant exactly
once, and `NUM_VARIANTS` equals the declared variant count: 3 for
`Color` (Always, Auto, Never) and 5 for `LogLevelSerdable` (Trace,
Debug, Info, Warn, Error). -/
theorem c3_catalogue_completeness :
    (∀ v : Color, Color.ENUM_VARIANTS.count v = 1) ∧
    Color.NUM_VARIANTS = 3 ∧ Color.NUM_VARIANTS = Fintype.card Color ∧
    (∀ v : LogLevelSerdable, LogLevelSerdable.ENUM_VARIANTS.count v = 1) ∧
    LogLevelSerdable.NUM_VARIANTS = 5 ∧
    LogLevelSerdable.NUM_VARIANTS = Fintype.card LogLevelSerdable := by
  decide

/-- Claim C4: if the input equals `ENUM_VARIANT_STRINGS[i]` and equals
no earlier token, `from_str` returns `Ok (ENUM_VARIANTS[i])` — the
first matching arm in binding-table order wins, and matching is exact
string equality with no case normalization. -/
theorem c4_from_str_first_match :
    (∀ (s : String) (i : Fin Color.NUM_VARIANTS),
      s = Color.ENUM_VARIANT_STRINGS.get i →
      (∀ j : Fin Color.NUM_VARIANTS, j < i → s ≠ Color.ENUM_VARIANT_STRINGS.get j) →
      Color.from_str s = .ok (Color.ENUM_VARIANTS.get i)) ∧
    (∀ (s : String) (i : Fin LogLevelSerdable.NUM_VARIANTS),
      s = LogLevelSerdable.ENUM_VARIANT_STRINGS.get i →
      (∀ j : Fin LogLevelSerdable.NUM_VARIANTS, j < i →
        s ≠ LogLevelSerdable.ENUM_VARIANT_STRINGS.get j) →
      LogLevelSerdable.from_str s = .ok (LogLevelSerdable.ENUM_VARIANTS.get i)) := by
  constructor <;>
  · intro s i heq _hfirst
    subst heq
    revert i
    decide

/-- Witness for C4: `from_str "auto"` returns `Ok Auto`, obtained from
the first-match theorem at index 1 of the `Color` catalogue. -/
theorem c4_witness : Color.from_str "auto" = .ok Color.Auto := by
  exact c4_from_str_first_match.1 "auto" ⟨1, by decide⟩ (by decide) (by decide)

/-- Claim C5: `from_str` returns the no-match error exactly when the
input equals none of the catalogue tokens; in particular the probe
token `__not_a_real_token__` is rejected by both enumerations; the
error is a returned `Err` value, and `as_static_str` yields a catalogue
token for every variant (it never fails). -/
theorem c5_unknown_token_rejection :
    (∀ s : String, Color.from_str s = .error () ↔ s ∉ Color.ENUM_VARIANT_STRINGS) ∧
    (∀ s : String,
      LogLevelSerdable.from_str s = .error () ↔
        s ∉ LogLevelSerdable.ENUM_VARIANT_STRINGS) ∧
    Color.from_str "__not_a_real_token__" = .error () ∧
    LogLevelSerdable.from_str "__not_a_real_token__" = .error () ∧
    (∀ v : Color, v.as_static_str ∈ Color.ENUM_VARIANT_STRINGS) ∧
    (∀ v : LogLevelSerdable,
      v.as_static_str ∈ LogLevelSerdable.ENUM_VARIANT_STRINGS) := by
  refine ⟨?_, ?_, by decide, by decide, by decide, by decide⟩
  · intro s
    by_cases h1 : s = "always"
    · simp [Color.from_str, Color.ENUM_VARIANT_STRINGS, h1]
    by_cases h2 : s = "auto"
    · simp [Color.from_str, Color.ENUM_VARIANT_STRINGS, h1, h2]
    by_cases h3 : s = "never"
    · simp [Color.from_str, Color.ENUM_VARIANT_STRINGS, h1, h2, h3]
    · simp [Color.from_str, Color.ENUM_VARIANT_STRINGS, h1, h2, h3]
  · intro s
    by_cases h1 : s = "trace"
    · simp [LogLevelSerdable.from_str, LogLevelSerdable.ENUM_VARIANT_STRINGS, h1]
    by_cases h2 : s = "debug"
    · simp [LogLevelSerdable.from_str, LogLevelSerdable.ENUM_VARIANT_STRINGS, h1, h2]
    by_cases h3 : s = "info"
    · simp [LogLevelSerdable.from_str, LogLevelSerdable.ENUM_VARIANT_STRINGS, h1, h2, h3]
    by_cases h4 : s = "warn"
    · simp [LogLevelSerdable.from_str, LogLevelSerdable.ENUM_VARIANT_STRINGS, h1, h2, h3, h4]
    by_cases h5 : s = "error"
    · simp [LogLevelSerdable.from_str, LogLevelSerdable.ENUM_VARIANT_STRINGS, h1, h2, h3, h4, h5]
    · simp [LogLevelSerdable.from_str, LogLevelSerdable.ENUM_VARIANT_STRINGS, h1, h2, h3, h4, h5]

/-- Witness for C5: a concrete unknown token is rejected, obtained by
applying the iff of the claim theorem. -/
theorem c5_witness : Color.from_str "zzz" = .error () :=
  (c5_unknown_token_rejection.1 "zzz").mpr (by decide)

/-- Claim C6: both shipped enumerations use the display mode, and with
no width and no precision flags the generated `Display::fmt` renders a
variant as exactly its token `as_static_str v`. -/
theorem c6_display_delegation (f : Formatter)
    (hw : f.width = none) (hp : f.precision = none) :
    (∀ v : Color, v.fmtDisplay f = v.as_static_str) ∧
    (∀ v : LogLevelSerdable, v.fmtDisplay f = v.as_static_str) := by
  constructor <;> intro v <;>
    simp [Color.fmtDisplay, LogLevelSerdable.fmtDisplay, Formatter.pad, hw, hp]

/-- Witness for C6: a formatter with no flags renders `Auto` as
`"auto"`. -/
theorem c6_witness :
    Color.Auto.fmtDisplay ⟨' ', .left, none, none⟩ = "auto" :=
  (c6_display_delegation ⟨' ', .left, none, none⟩ rfl rfl).1 Color.Auto

/-- Claim C7: for every stream terminal-ness `b`,
`Always.detect = true` and `Never.detect = false` regardless of `b`,
and `Auto.detect = b`; in particular for a non-terminal stream the
answers are true, false, false. -/
theorem c7_detect_policy :
    ∀ b : Bool,
      Color.Always.detect b = true ∧
      Color.Auto.detect b = b ∧
      Color.Never.detect b = false := by
  decide

/-- Claim C8: `to_tracing` maps each `LogLevelSerdable` variant to the
`tracing::Level` of the same name, and is total over the five
variants. -/
theorem c8_to_tracing_mapping :
    LogLevelSerdable.Trace.to_tracing = Level.TRACE ∧
    LogLevelSerdable.Debug.to_tracing = Level.DEBUG ∧
    LogLevelSerdable.Info.to_tracing = Level.INFO ∧
    LogLevelSerdable.Warn.to_tracing = Level.WARN ∧
    LogLevelSerdable.Error.to_tracing = Level.ERROR := by
  decide

/-- Claim C9: `Color::default()` is `Auto` unconditionally, and
`LogLevelSerdable::default()` is `Debug` when debug assertions are
enabled and `Warn` otherwise. -/
theorem c9_default_values :
    Color.default = Color.Auto ∧
    LogLevelSerdable.default true = LogLevelSerdable.Debug ∧
    LogLevelSerdable.default false = LogLevelSerdable.Warn := by
  decide

/-- Claim C10: the derived total order is strictly increasing in
declaration order (`Always < Auto < Never` and
`Trace < Debug < Info < Warn < Error`), and on each catalogue the order
of two entries agrees with the order of their indices. -/
theorem c10_derived_order :
    Color.lt .Always .Auto ∧ Color.lt .Auto .Never ∧
    LogLevelSerdable.lt .Trace .Debug ∧ LogLevelSerdable.lt .Debug .Info ∧
    LogLevelSerdable.lt .Info .Warn ∧ LogLevelSerdable.lt .Warn .Error ∧
    (∀ i j : Fin Color.NUM_VARIANTS,
      Color.lt (Color.ENUM_VARIANTS.get i) (Color.ENUM_VARIANTS.get j) ↔ i < j) ∧
    (∀ i j : Fin LogLevelSerdable.NUM_VARIANTS,
      LogLevelSerdable.lt (LogLevelSerdable.ENUM_VARIANTS.get i)
        (LogLevelSerdable.ENUM_VARIANTS.get j) ↔ i < j) := by
  decide

end VlkTracing
